import Mathlib

/-!
Shallow embedding of the slack-summarize service layer
(`apps/web/src/services/slackService.ts`) and of the call site in
`src/App.tsx` (`handleFormSubmit`).

Network effects are modelled by passing the environment explicitly: a
`fetch` call is represented by the `HttpRequest` value the code builds and
an environment function `HttpRequest → FetchOutcome α` that returns what
the JavaScript runtime would deliver for that request. A `FetchOutcome` is
either a network-level throw (the `fetch` promise rejects) or a resolved
response carrying an HTTP status and a body; the body is `Except JsError α`
because `response.json()` itself may reject on a malformed body. Functions
that let failures escape return `Except JsError _`; functions that wrap
their body in `try/catch` return plain values.
-/

/-- Shape of one message object in the Slack provider response
(`SlackApiMessage` in slackService.ts): fields `user`, `text`, `ts`. -/
structure SlackApiMessage where
  user : String
  text : String
  ts : String
deriving DecidableEq, Repr

/-- Shape produced by `fetchSlackThread`: the provider `ts` field is moved
verbatim to `timestamp` (slackService.ts lines 22-26). -/
structure Message where
  user : String
  text : String
  timestamp : String
deriving DecidableEq, Repr

/-- An outbound HTTP request as the code builds it: URL, method and
header list. -/
structure HttpRequest where
  url : String
  method : String
  headers : List (String × String)
deriving DecidableEq, Repr

/-- A JavaScript exception value (only its message matters here). -/
structure JsError where
  message : String
deriving DecidableEq, Repr

/-- Result of one `fetch` as the runtime delivers it: either the promise
rejects (network failure), or it resolves with a status code and a body;
parsing the body with `response.json()` is `Except JsError α` because a
malformed body makes `json()` reject. -/
inductive FetchOutcome (α : Type) where
  | thrown (e : JsError)
  | ok (status : Nat) (body : Except JsError α)
deriving Repr

/-- Parsed body of the `conversations.replies` endpoint. The `messages`
field is `Option` because an error body (e.g. `{ok:false,error:...}`) has
no `messages` key, in which case `data.messages` is `undefined` in JS. -/
structure SlackRepliesBody where
  messages : Option (List SlackApiMessage)
deriving DecidableEq, Repr

/-- The request `fetchSlackThread` issues (slackService.ts lines 15-19):
a GET to the fixed replies endpoint with the bearer header. `threadUrl`
is in scope at the call but never read (only mentioned in a comment). -/
def fetchSlackThreadRequest (threadUrl slackToken : String) : HttpRequest :=
  { url := "https://slack.com/api/conversations.replies"
    method := "GET"
    headers := [("Authorization", "Bearer " ++ slackToken)] }

/-- `fetchSlackThread` (slackService.ts lines 9-27). Returns the list of
requests the execution issues together with its result. The body has no
`try/catch`: a rejected `fetch`, a rejected `response.json()`, or a body
without a `messages` array (`data.messages.map` throws a TypeError on
`undefined`) all surface as `Except.error`. On success each provider
message is mapped to `Message` with `timestamp := ts`. -/
def fetchSlackThread (threadUrl slackToken : String)
    (net : HttpRequest → FetchOutcome SlackRepliesBody) :
    List HttpRequest × Except JsError (List Message) :=
  (([fetchSlackThreadRequest threadUrl slackToken]),
    match net (fetchSlackThreadRequest threadUrl slackToken) with
    | FetchOutcome.thrown e => Except.error e
    | FetchOutcome.ok _ (Except.error e) => Except.error e
    | FetchOutcome.ok _ (Except.ok data) =>
      match data.messages with
      | none => Except.error { message := "TypeError: data.messages is undefined" }
      | some msgs => Except.ok (msgs.map fun msg =>
          { user := msg.user, text := msg.text, timestamp := msg.ts }))

/-- One message of the outbound chat-completion exchange. -/
structure ChatMessage where
  role : String
  content : String
deriving DecidableEq, Repr

/-- The chat-completion request body as `generateSummary` builds it
(slackService.ts lines 46-55): the object literal carries only `model` and
`messages`; the endpoint has an optional `temperature` field, and an
absent key is `temperature := none` here. -/
structure ChatRequest where
  model : String
  messages : List ChatMessage
  temperature : Option ℚ
deriving DecidableEq, Repr

/-- `message` object of one response choice; `content` is `Option` since
the field may be absent. -/
structure ChoiceMessage where
  content : Option String
deriving DecidableEq, Repr

/-- One element of the response `choices` array; `message` may be absent
(the code guards it with `?.`). -/
structure ChatChoice where
  message : Option ChoiceMessage
deriving DecidableEq, Repr

/-- Chat-completion response body: a `choices` array. -/
structure ChatResponse where
  choices : List ChatChoice
deriving DecidableEq, Repr

/-- JavaScript `Array.prototype.join(sep)` on a list of strings: empty
array gives the empty string, elements are interleaved with `sep`. -/
def joinStrings (sep : String) : List String → String
  | [] => ""
  | [s] => s
  | s :: t :: rest => s ++ sep ++ joinStrings sep (t :: rest)

/-- The conversation transcript (slackService.ts lines 39-41):
`messages.map((msg) => user + ": " + text).join("\n")`. -/
def conversationText (messages : List SlackApiMessage) : String :=
  joinStrings "\n" (messages.map fun msg => msg.user ++ ": " ++ msg.text)

/-- System instruction selection (slackService.ts lines 43-44): the
Traditional-Chinese literal exactly when `language = "zh-Hant"`, the
English literal otherwise. -/
def systemPrompt (language : String) : String :=
  if language = "zh-Hant" then "請用繁體中文回答" else "Please respond in English"

/-- The request `generateSummary` sends (slackService.ts lines 46-55):
fixed model, a system message with the language instruction and a user
message `prompt + "\n\nConversation:\n" + transcript`; no `temperature`
key is written. -/
def generateSummaryRequest (messages : List SlackApiMessage)
    (prompt language : String) : ChatRequest :=
  { model := "gpt-3.5-turbo"
    messages := [
      { role := "system", content := systemPrompt language },
      { role := "user",
        content := prompt ++ "\n\nConversation:\n" ++ conversationText messages }]
    temperature := none }

/-- Result extraction (slackService.ts line 57):
`response.data.choices[0]?.message?.content || ""`. Each missing link of
the optional chain, and an empty `content`, give the empty string. -/
def extractSummary (resp : ChatResponse) : String :=
  match resp.choices.head? with
  | none => ""
  | some c =>
    match c.message with
    | none => ""
    | some m =>
      match m.content with
      | none => ""
      | some s => s

/-- `generateSummary` (slackService.ts lines 29-58): builds the request,
sends it through the provider (`openAiToken` only configures the client)
and extracts the first choice content. -/
def generateSummary (messages : List SlackApiMessage)
    (openAiToken prompt language : String)
    (provider : ChatRequest → ChatResponse) : String :=
  extractSummary (provider (generateSummaryRequest messages prompt language))

/-- The call in `src/App.tsx` `handleFormSubmit` (lines 92-98): five
arguments are passed, but `generateSummary` declares four parameters, so
JavaScript drops the trailing `temperature` argument. -/
def handleFormSubmitSummaryCall (fetchedMessages : List SlackApiMessage)
    (openAiToken prompt language : String) (temperature : ℚ)
    (provider : ChatRequest → ChatResponse) : String :=
  generateSummary fetchedMessages openAiToken prompt language provider

/-- The request `validateSlackToken` issues (slackService.ts lines 62-68):
POST to `auth.test` with bearer and content-type headers. -/
def validateSlackTokenRequest (token : String) : HttpRequest :=
  { url := "https://slack.com/api/auth.test"
    method := "POST"
    headers := [("Authorization", "Bearer " ++ token),
                ("Content-Type", "application/json")] }

/-- Parsed body of the `auth.test` endpoint; `ok` is `Option` because the
key may be absent (then `data.ok === true` is false in JS). -/
structure AuthTestBody where
  ok : Option Bool
deriving DecidableEq, Repr

/-- `validateSlackToken` (slackService.ts lines 60-74): the whole body is
inside `try/catch`, so a rejected `fetch` or a rejected `response.json()`
yields `false`; otherwise the result is `data.ok === true`. The HTTP
status is never consulted. -/
def validateSlackToken (token : String)
    (net : HttpRequest → FetchOutcome AuthTestBody) : Bool :=
  match net (validateSlackTokenRequest token) with
  | FetchOutcome.thrown _ => false
  | FetchOutcome.ok _ (Except.error _) => false
  | FetchOutcome.ok _ (Except.ok data) => data.ok == some true

/-- The request `validateOpenAIToken` issues (slackService.ts lines
78-82): GET to the model-listing endpoint with the bearer header. -/
def validateOpenAITokenRequest (token : String) : HttpRequest :=
  { url := "https://api.openai.com/v1/models"
    method := "GET"
    headers := [("Authorization", "Bearer " ++ token)] }

/-- `validateOpenAIToken` (slackService.ts lines 76-87): inside
`try/catch`, a rejected `fetch` yields `false`; otherwise the result is
`response.status === 200`. The body is never read (no `json()` call), so
its well-formedness is irrelevant. -/
def validateOpenAIToken (token : String)
    (net : HttpRequest → FetchOutcome Unit) : Bool :=
  match net (validateOpenAITokenRequest token) with
  | FetchOutcome.thrown _ => false
  | FetchOutcome.ok status _ => status == 200

/-- The two-message provider thread of the end-to-end scenario in the
spec. -/
def sampleThread : List SlackApiMessage :=
  [{ user := "alice", text := "hi", ts := "1" },
   { user := "bob", text := "yo", ts := "2" }]

/-- A network environment that answers every request with status 200 and
the `sampleThread` replies body. -/
def sampleRepliesNet : HttpRequest → FetchOutcome SlackRepliesBody :=
  fun _ => FetchOutcome.ok 200 (Except.ok { messages := some sampleThread })

/-- C1: for a non-empty access token and a syntactically valid thread
reference, `fetchSlackThread` issues exactly one network request carrying
the bearer credential, and when the provider responds with a message list
the returned sequence has the same length as that list, each entry keeping
the provider `ts` field verbatim as `timestamp`, in provider order. -/
theorem fetchSlackThread_single_request_roundtrip
    (threadUrl slackToken : String) (hTok : slackToken ≠ "")
    (status : Nat) (msgs : List SlackApiMessage)
    (net : HttpRequest → FetchOutcome SlackRepliesBody)
    (hnet : net (fetchSlackThreadRequest threadUrl slackToken) =
      FetchOutcome.ok status (Except.ok { messages := some msgs })) :
    (fetchSlackThread threadUrl slackToken net).fst.length = 1 ∧
    (∀ req ∈ (fetchSlackThread threadUrl slackToken net).fst,
      ("Authorization", "Bearer " ++ slackToken) ∈ req.headers) ∧
    ∃ result,
      (fetchSlackThread threadUrl slackToken net).snd = Except.ok result ∧
      result.length = msgs.length ∧
      ∀ i (h : i < result.length) (h2 : i < msgs.length),
        result.get ⟨i, h⟩ =
          { user := (msgs.get ⟨i, h2⟩).user
            text := (msgs.get ⟨i, h2⟩).text
            timestamp := (msgs.get ⟨i, h2⟩).ts } := by
  refine ⟨rfl, ?_, ?_⟩
  · intro req hreq
    simp only [fetchSlackThread, List.mem_singleton] at hreq
    subst hreq
    simp [fetchSlackThreadRequest]
  · refine ⟨msgs.map fun msg =>
      { user := msg.user, text := msg.text, timestamp := msg.ts }, ?_, ?_, ?_⟩
    · simp [fetchSlackThread, hnet]
    · simp
    · intro i h h2
      simp [List.get_map]

/-- C1 witness: the concrete end-to-end scenario of the spec. -/
theorem fetchSlackThread_single_request_roundtrip_witness :
    ("tok" : String) ≠ "" ∧
    ∃ result,
      (fetchSlackThread "https://x.slack.com/archives/C1/p123" "tok"
        sampleRepliesNet).snd = Except.ok result ∧
      result.length = 2 := by
  have h := fetchSlackThread_single_request_roundtrip
    "https://x.slack.com/archives/C1/p123" "tok" (by decide) 200
    sampleThread sampleRepliesNet rfl
  exact ⟨by decide, h.2.2.elim fun r hr => ⟨r, hr.1, by rw [hr.2.1]; rfl⟩⟩

/-- C2: `generateSummary` builds exactly two outbound chat messages, a
system message with the language instruction and a user message equal to
the prompt, then the literal marker, then the transcript; the transcript
concatenates author-colon-body lines joined by single newlines in input
order. -/
theorem generateSummaryRequest_two_messages
    (msgs : List SlackApiMessage) (prompt language : String) :
    (generateSummaryRequest msgs prompt language).messages =
      [{ role := "system", content := systemPrompt language },
       { role := "user",
         content := prompt ++ "\n\nConversation:\n" ++ conversationText msgs }] ∧
    conversationText [] = "" ∧
    (∀ m, conversationText [m] = m.user ++ ": " ++ m.text) ∧
    (∀ m m2 rest, conversationText (m :: m2 :: rest) =
      m.user ++ ": " ++ m.text ++ "\n" ++ conversationText (m2 :: rest)) :=
  ⟨rfl, rfl, fun _ => rfl, fun _ _ _ => rfl⟩

/-- C3: the system instruction is the Traditional-Chinese literal exactly
for language `"zh-Hant"` and the English literal for every other value;
no error is raised for unrecognized codes (the function is total). -/
theorem systemPrompt_language_selection :
    systemPrompt "zh-Hant" = "請用繁體中文回答" ∧
    ∀ language, language ≠ "zh-Hant" →
      systemPrompt language = "Please respond in English" := by
  refine ⟨rfl, fun language h => ?_⟩
  simp [systemPrompt, h]

/-- C3 witness: evaluated at `"zh-Hant"` and at the unrelated code
`"en"`. -/
theorem systemPrompt_language_selection_witness :
    systemPrompt "zh-Hant" = "請用繁體中文回答" ∧
    ("en" : String) ≠ "zh-Hant" ∧
    systemPrompt "en" = "Please respond in English" :=
  ⟨systemPrompt_language_selection.1, by decide,
   systemPrompt_language_selection.2 "en" (by decide)⟩

/-- C4 (refuting the claim): the code drops the temperature. The App call
site passes five arguments but `generateSummary` declares four parameters,
so the result is independent of the supplied temperature, and the outbound
request carries no temperature field at all. -/
theorem handleFormSubmit_temperature_dropped
    (msgs : List SlackApiMessage) (openAiToken prompt language : String)
    (t1 t2 : ℚ) (provider : ChatRequest → ChatResponse) :
    handleFormSubmitSummaryCall msgs openAiToken prompt language t1 provider =
      handleFormSubmitSummaryCall msgs openAiToken prompt language t2 provider ∧
    (generateSummaryRequest msgs prompt language).temperature = none :=
  ⟨rfl, rfl⟩

/-- C5: if the response has no choices, or the first choice lacks the
message or content field, `generateSummary` returns the empty string; when
the content is present it is returned as-is. -/
theorem generateSummary_choices_fallback
    (msgs : List SlackApiMessage) (openAiToken prompt language : String)
    (provider : ChatRequest → ChatResponse) :
    ((provider (generateSummaryRequest msgs prompt language)).choices = [] →
      generateSummary msgs openAiToken prompt language provider = "") ∧
    (∀ c rest,
      (provider (generateSummaryRequest msgs prompt language)).choices = c :: rest →
      c.message = none →
      generateSummary msgs openAiToken prompt language provider = "") ∧
    (∀ c rest m,
      (provider (generateSummaryRequest msgs prompt language)).choices = c :: rest →
      c.message = some m → m.content = none →
      generateSummary msgs openAiToken prompt language provider = "") ∧
    (∀ c rest m s,
      (provider (generateSummaryRequest msgs prompt language)).choices = c :: rest →
      c.message = some m → m.content = some s →
      generateSummary msgs openAiToken prompt language provider = s) := by
  refine ⟨?_, ?_, ?_, ?_⟩
  · intro h; simp [generateSummary, extractSummary, h]
  · intro c rest h hm; simp [generateSummary, extractSummary, h, hm]
  · intro c rest m h hm hc; simp [generateSummary, extractSummary, h, hm, hc]
  · intro c rest m s h hm hc; simp [generateSummary, extractSummary, h, hm, hc]

/-- C5 witness: an empty choices array gives the empty string and a
present content is returned verbatim. -/
theorem generateSummary_choices_fallback_witness :
    generateSummary [] "tok" "Summarize" "en" (fun _ => { choices := [] }) = "" ∧
    generateSummary [] "tok" "Summarize" "en"
      (fun _ => { choices :=
        [{ message := some { content := some "hello" } }] }) = "hello" :=
  ⟨(generateSummary_choices_fallback [] "tok" "Summarize" "en"
      (fun _ => { choices := [] })).1 rfl,
   (generateSummary_choices_fallback [] "tok" "Summarize" "en"
      (fun _ => { choices :=
        [{ message := some { content := some "hello" } }] })).2.2.2
      { message := some { content := some "hello" } } []
      { content := some "hello" } "hello" rfl rfl rfl⟩

/-- C6 counterexample: the claim as stated is false. `validateOpenAIToken`
never reads the body, so a response with a malformed JSON body but status
200 yields true, not false; and `validateSlackToken` never consults the
HTTP status, so a 500 response whose JSON body carries `ok: true` yields
true, not false. -/
theorem validators_failure_to_false_counterexample :
    validateOpenAIToken "tok"
      (fun _ => FetchOutcome.ok 200
        (Except.error { message := "SyntaxError: malformed body" })) = true ∧
    validateSlackToken "tok"
      (fun _ => FetchOutcome.ok 500 (Except.ok { ok := some true })) = true :=
  ⟨rfl, rfl⟩

/-- C6 (amended): neither validator can raise (both are total); a
network-level throw yields false from either validator; a JSON-parse
failure yields false from `validateSlackToken` (the only validator that
parses the body); a response whose body does not carry `ok = true` yields
false from `validateSlackToken`; and a non-200 status — in particular a
500 — yields false from `validateOpenAIToken`. -/
theorem validators_failure_to_false
    (token : String)
    (netS : HttpRequest → FetchOutcome AuthTestBody)
    (netO : HttpRequest → FetchOutcome Unit) :
    (∀ e, netS (validateSlackTokenRequest token) = FetchOutcome.thrown e →
      validateSlackToken token netS = false) ∧
    (∀ status e, netS (validateSlackTokenRequest token) =
        FetchOutcome.ok status (Except.error e) →
      validateSlackToken token netS = false) ∧
    (∀ status body, netS (validateSlackTokenRequest token) =
        FetchOutcome.ok status (Except.ok body) → body.ok ≠ some true →
      validateSlackToken token netS = false) ∧
    (∀ e, netO (validateOpenAITokenRequest token) = FetchOutcome.thrown e →
      validateOpenAIToken token netO = false) ∧
    (∀ status body, netO (validateOpenAITokenRequest token) =
        FetchOutcome.ok status body → status ≠ 200 →
      validateOpenAIToken token netO = false) := by
  refine ⟨?_, ?_, ?_, ?_, ?_⟩
  · intro e h; simp [validateSlackToken, h]
  · intro status e h; simp [validateSlackToken, h]
  · intro status body h hok
    simp [validateSlackToken, h]
    exact hok
  · intro e h; simp [validateOpenAIToken, h]
  · intro status body h hs
    simp [validateOpenAIToken, h]
    exact hs

/-- C6 witness: the three mocked failure shapes of the spec — a 500 error
response, a malformed JSON body, and a network throw — all evaluate to
false on the corresponding validator. -/
theorem validators_failure_to_false_witness :
    validateSlackToken "tok"
      (fun _ => FetchOutcome.thrown { message := "NetworkError" }) = false ∧
    validateSlackToken "tok"
      (fun _ => FetchOutcome.ok 200
        (Except.error { message := "SyntaxError: malformed body" })) = false ∧
    validateSlackToken "tok"
      (fun _ => FetchOutcome.ok 500 (Except.ok { ok := some false })) = false ∧
    validateOpenAIToken "tok"
      (fun _ => FetchOutcome.thrown { message := "NetworkError" }) = false ∧
    validateOpenAIToken "tok"
      (fun _ => FetchOutcome.ok 500 (Except.ok ())) = false :=
  ⟨(validators_failure_to_false "tok"
      (fun _ => FetchOutcome.thrown { message := "NetworkError" })
      (fun _ => FetchOutcome.thrown { message := "NetworkError" })).1
      { message := "NetworkError" } rfl,
   (validators_failure_to_false "tok"
      (fun _ => FetchOutcome.ok 200
        (Except.error { message := "SyntaxError: malformed body" }))
      (fun _ => FetchOutcome.thrown { message := "NetworkError" })).2.1
      200 { message := "SyntaxError: malformed body" } rfl,
   (validators_failure_to_false "tok"
      (fun _ => FetchOutcome.ok 500 (Except.ok { ok := some false }))
      (fun _ => FetchOutcome.thrown { message := "NetworkError" })).2.2.1
      500 { ok := some false } rfl (by decide),
   (validators_failure_to_false "tok"
      (fun _ => FetchOutcome.thrown { message := "NetworkError" })
      (fun _ => FetchOutcome.thrown { message := "NetworkError" })).2.2.2.1
      { message := "NetworkError" } rfl,
   (validators_failure_to_false "tok"
      (fun _ => FetchOutcome.thrown { message := "NetworkError" })
      (fun _ => FetchOutcome.ok 500 (Except.ok ()))).2.2.2.2
      500 (Except.ok ()) rfl (by decide)⟩

/-- C7: `fetchSlackThread` catches nothing: a network-level throw, a
rejected body parse, and a body without a `messages` array all surface as
errors to the caller, unchanged and unclassified, and exactly one request
is issued (no retry). -/
theorem fetchSlackThread_propagates_errors
    (threadUrl slackToken : String)
    (net : HttpRequest → FetchOutcome SlackRepliesBody) :
    (∀ e, net (fetchSlackThreadRequest threadUrl slackToken) =
        FetchOutcome.thrown e →
      (fetchSlackThread threadUrl slackToken net).snd = Except.error e) ∧
    (∀ status e, net (fetchSlackThreadRequest threadUrl slackToken) =
        FetchOutcome.ok status (Except.error e) →
      (fetchSlackThread threadUrl slackToken net).snd = Except.error e) ∧
    (∀ status, net (fetchSlackThreadRequest threadUrl slackToken) =
        FetchOutcome.ok status (Except.ok { messages := none }) →
      ∃ e, (fetchSlackThread threadUrl slackToken net).snd = Except.error e) ∧
    (fetchSlackThread threadUrl slackToken net).fst.length = 1 := by
  refine ⟨?_, ?_, ?_, rfl⟩
  · intro e h; simp [fetchSlackThread, h]
  · intro status e h; simp [fetchSlackThread, h]
  · intro status h
    exact ⟨{ message := "TypeError: data.messages is undefined" },
      by simp [fetchSlackThread, h]⟩

/-- C7 witness: a network throw at a concrete input propagates
verbatim. -/
theorem fetchSlackThread_propagates_errors_witness :
    (fetchSlackThread "https://x.slack.com/archives/C1/p123" "tok"
      (fun _ => FetchOutcome.thrown { message := "NetworkError" })).snd =
      Except.error { message := "NetworkError" } :=
  (fetchSlackThread_propagates_errors "https://x.slack.com/archives/C1/p123"
    "tok" (fun _ => FetchOutcome.thrown { message := "NetworkError" })).1
    { message := "NetworkError" } rfl

/-- C8: `fetchSlackThread` never reads its thread reference: any two
thread URL strings with the same token produce the same outbound request
and, against the same network environment, the same full behaviour. -/
theorem fetchSlackThread_independent_of_threadUrl
    (url1 url2 slackToken : String)
    (net : HttpRequest → FetchOutcome SlackRepliesBody) :
    fetchSlackThreadRequest url1 slackToken =
      fetchSlackThreadRequest url2 slackToken ∧
    fetchSlackThread url1 slackToken net = fetchSlackThread url2 slackToken net :=
  ⟨rfl, rfl⟩

/-- C9: on the empty message list the transcript is the empty string and
the outbound user-role content is the prompt followed by the literal
conversation marker with nothing after it; `generateSummary` is total, so
nothing fails. -/
theorem generateSummary_empty_messages
    (openAiToken prompt language : String)
    (provider : ChatRequest → ChatResponse) :
    conversationText [] = "" ∧
    (generateSummaryRequest [] prompt language).messages.get? 1 =
      some { role := "user", content := prompt ++ "\n\nConversation:\n" } ∧
    generateSummary [] openAiToken prompt language provider =
      extractSummary (provider (generateSummaryRequest [] prompt language)) := by
  refine ⟨rfl, ?_, rfl⟩
  simp [generateSummaryRequest, conversationText, joinStrings]

/-- C10: `validateOpenAIToken` answers true exactly when the model-listing
response resolved with HTTP status literally 200; every other status
(201, 204, 500, ...) and a network throw give false. -/
theorem validateOpenAIToken_true_iff_status_200
    (token : String) (netO : HttpRequest → FetchOutcome Unit) :
    validateOpenAIToken token netO = true ↔
      ∃ body, netO (validateOpenAITokenRequest token) =
        FetchOutcome.ok 200 body := by
  unfold validateOpenAIToken
  cases h : netO (validateOpenAITokenRequest token) with
  | thrown e => simp [h]
  | ok status body => simp [h]
